import Mathlib

/-!
Shallow embedding of `great_expectations/datasource/fluent/sqlite_datasource.py`
and `tests/integration/cloud/rest_contracts/test_datasource.py`, together with
theorems settling the specification claims about them.

Python dicts are embedded as association lists `List (String × V)`; Python
methods that can raise are embedded as `Except String _`-valued functions.
-/

/- ### PartitionerConvertedDateTime (sqlite_datasource.py, lines 58-94) -/

/-- Embedding of the pydantic model `PartitionerConvertedDateTime`.
The Python field `method_name` has type
`Literal["partition_on_converted_datetime"]` with that literal as default;
pydantic validation rejects any other value, which is enforced by the
constructor `mkPartitionerConvertedDateTime` below. -/
structure PartitionerConvertedDateTime where
  date_format_string : String
  column_name : String
  method_name : String := "partition_on_converted_datetime"
deriving DecidableEq, Repr

/-- Pydantic construction of a `PartitionerConvertedDateTime`: `method_name`
is optional (defaulting to the literal) and, when supplied, must equal the
single value admitted by its `Literal` type annotation, else validation
fails. -/
def mkPartitionerConvertedDateTime (date_format_string column_name : String)
    (method_name : Option String) : Except String PartitionerConvertedDateTime :=
  let m := method_name.getD "partition_on_converted_datetime"
  if m = "partition_on_converted_datetime" then
    Except.ok { date_format_string := date_format_string,
                column_name := column_name,
                method_name := m }
  else
    Except.error "unexpected value; permitted: partition_on_converted_datetime"

/-- Embedding of the property `param_names` (lines 72-77): returns the fixed
list `["datetime"]`, ignoring the instance's fields. -/
def PartitionerConvertedDateTime.param_names
    (_p : PartitionerConvertedDateTime) : List String :=
  ["datetime"]

/-- Embedding of `partitioner_method_kwargs` (lines 79-84): builds the dict
`\x7b"column_name": self.column_name, "date_format_string": self.date_format_string\x7d`. -/
def PartitionerConvertedDateTime.partitioner_method_kwargs
    (p : PartitionerConvertedDateTime) : List (String × String) :=
  [("column_name", p.column_name), ("date_format_string", p.date_format_string)]

/-- Embedding of `batch_request_options_to_batch_spec_kwarg_identifiers`
(lines 86-94): if the key `"datetime"` is not in `options`, raise
`ValueError`; otherwise return the one-entry dict from `self.column_name`
to `options["datetime"]`.  The value type of the options dict is kept
abstract as `V` (Python annotates it `Any`). -/
def PartitionerConvertedDateTime.batch_request_options_to_batch_spec_kwarg_identifiers
    {V : Type} (p : PartitionerConvertedDateTime) (options : List (String × V)) :
    Except String (List (String × V)) :=
  match options.lookup "datetime" with
  | none => Except.error
      "datetime must be specified in the batch request options to create a batch identifier"
  | some v => Except.ok [(p.column_name, v)]

/-- Stateful embedding of the same method: the Python method body reads
`self.column_name` but contains no assignment to any attribute of `self`,
so the post-state component is the unchanged receiver. -/
def PartitionerConvertedDateTime.batch_request_options_step
    {V : Type} (p : PartitionerConvertedDateTime) (options : List (String × V)) :
    PartitionerConvertedDateTime × Except String (List (String × V)) :=
  (p, p.batch_request_options_to_batch_spec_kwarg_identifiers options)

/- ### Helper lemmas on association-list lookup -/

theorem lookup_eq_none_iff_not_mem_keys {V : Type} (k : String)
    (l : List (String × V)) : l.lookup k = none ↔ k ∉ l.map Prod.fst := by
  induction l with
  | nil => simp [List.lookup]
  | cons kv rest ih =>
    obtain ⟨k2, v⟩ := kv
    by_cases h : k = k2
    · subst h
      simp [List.lookup]
    · have hb : (k == k2) = false := by
        simp [h]
      simp [List.lookup, hb, ih, h]

/- ### Claim theorems about the partitioner -/

/-- C1: for every `PartitionerConvertedDateTime` and every batch-request
options mapping containing the key `"datetime"`,
`batch_request_options_to_batch_spec_kwarg_identifiers` returns exactly the
one-entry mapping from the partitioner's `column_name` to
`options["datetime"]`. -/
theorem batch_request_options_extracts_column_identifier {V : Type}
    (p : PartitionerConvertedDateTime) (options : List (String × V)) (v : V)
    (h : options.lookup "datetime" = some v) :
    p.batch_request_options_to_batch_spec_kwarg_identifiers options =
      Except.ok [(p.column_name, v)] := by
  unfold PartitionerConvertedDateTime.batch_request_options_to_batch_spec_kwarg_identifiers
  rw [h]

theorem batch_request_options_extracts_column_identifier_witness :
    ({ date_format_string := "%Y-%m-%d", column_name := "pickup" } :
        PartitionerConvertedDateTime).batch_request_options_to_batch_spec_kwarg_identifiers
      [("datetime", "2020-01-01")] = Except.ok [("pickup", "2020-01-01")] :=
  batch_request_options_extracts_column_identifier
    { date_format_string := "%Y-%m-%d", column_name := "pickup" }
    [("datetime", "2020-01-01")] "2020-01-01" (by decide)

/-- C2: `partitioner_method_kwargs` returns a mapping with exactly the two
keys `"column_name"` and `"date_format_string"`, bound respectively to the
partitioner's `column_name` and `date_format_string` fields. -/
theorem partitioner_method_kwargs_exact_keys (p : PartitionerConvertedDateTime) :
    (p.partitioner_method_kwargs.map Prod.fst =
        ["column_name", "date_format_string"]) ∧
    p.partitioner_method_kwargs.lookup "column_name" = some p.column_name ∧
    p.partitioner_method_kwargs.lookup "date_format_string" =
      some p.date_format_string := by
  refine ⟨rfl, ?_, ?_⟩ <;> simp [PartitionerConvertedDateTime.partitioner_method_kwargs,
    List.lookup]

/-- C8: the method raises `ValueError` iff the key `"datetime"` is absent
from the options, and in the error case (indeed in every case) the
partitioner's state is unchanged. -/
theorem batch_request_options_error_iff_datetime_absent {V : Type}
    (p : PartitionerConvertedDateTime) (options : List (String × V)) :
    (p.batch_request_options_step options).1 = p ∧
    ((∃ e, (p.batch_request_options_step options).2 = Except.error e) ↔
      "datetime" ∉ options.map Prod.fst) := by
  refine ⟨rfl, ?_⟩
  rw [← lookup_eq_none_iff_not_mem_keys]
  unfold PartitionerConvertedDateTime.batch_request_options_step
    PartitionerConvertedDateTime.batch_request_options_to_batch_spec_kwarg_identifiers
  cases h : options.lookup "datetime" with
  | none => simp
  | some v => simp

/-- C9: every successfully constructed `PartitionerConvertedDateTime` has
`param_names = ["datetime"]` and
`method_name = "partition_on_converted_datetime"`, and the partitioner's
operations leave both values unchanged. -/
theorem partitioner_fixed_param_names_and_method_name
    (dfs cn : String) (mn : Option String) (p : PartitionerConvertedDateTime)
    (h : mkPartitionerConvertedDateTime dfs cn mn = Except.ok p) :
    p.param_names = ["datetime"] ∧
    p.method_name = "partition_on_converted_datetime" ∧
    (∀ (options : List (String × String)),
      ((p.batch_request_options_step options).1).param_names = p.param_names ∧
      ((p.batch_request_options_step options).1).method_name = p.method_name) := by
  refine ⟨rfl, ?_, fun options => ⟨rfl, rfl⟩⟩
  unfold mkPartitionerConvertedDateTime at h
  by_cases hm : mn.getD "partition_on_converted_datetime" =
      "partition_on_converted_datetime"
  · simp only [hm, if_pos] at h
    cases h
    rfl
  · simp only [hm, if_neg, not_false_eq_true] at h
    exact Except.noConfusion h

theorem partitioner_fixed_param_names_and_method_name_witness :
    ({ date_format_string := "%Y", column_name := "c",
       method_name := "partition_on_converted_datetime" } :
        PartitionerConvertedDateTime).param_names = ["datetime"] ∧
    ({ date_format_string := "%Y", column_name := "c",
       method_name := "partition_on_converted_datetime" } :
        PartitionerConvertedDateTime).method_name =
      "partition_on_converted_datetime" ∧
    (∀ (options : List (String × String)),
      ((({ date_format_string := "%Y", column_name := "c",
           method_name := "partition_on_converted_datetime" } :
            PartitionerConvertedDateTime).batch_request_options_step
          options).1).param_names =
        ({ date_format_string := "%Y", column_name := "c",
           method_name := "partition_on_converted_datetime" } :
            PartitionerConvertedDateTime).param_names ∧
      ((({ date_format_string := "%Y", column_name := "c",
           method_name := "partition_on_converted_datetime" } :
            PartitionerConvertedDateTime).batch_request_options_step
          options).1).method_name =
        ({ date_format_string := "%Y", column_name := "c",
           method_name := "partition_on_converted_datetime" } :
            PartitionerConvertedDateTime).method_name) :=
  partitioner_fixed_param_names_and_method_name "%Y" "c" none _ rfl

/- ### SqliteDsn (sqlite_datasource.py, lines 97-104) -/

/-- Embedding of the class attribute `SqliteDsn.allowed_schemes`: the fixed
set of four SQLite URL schemes. -/
def SqliteDsn.allowed_schemes : List String :=
  ["sqlite", "sqlite+pysqlite", "sqlite+aiosqlite", "sqlite+pysqlcipher"]

/-- Embedding of the class attribute `SqliteDsn.host_required = False`. -/
def SqliteDsn.host_required : Bool := false

/-- Modelled from the spec: the URL-parsing machinery of `pydantic.AnyUrl`
(an external collaborator, not under src/) splits a connection string at
the first occurrence of the separator `"://"` into the scheme before it
and the remainder after it; a string without the separator has no scheme. -/
def schemeRestSplit : List Char → Option (List Char × List Char)
  | [] => none
  | ':' :: '/' :: '/' :: rest => some ([], rest)
  | c :: rest =>
    (schemeRestSplit rest).map (fun p => (c :: p.1, p.2))

/-- Scheme of a connection string: the part before `"://"`, when present. -/
def urlScheme (s : String) : Option String :=
  (schemeRestSplit s.data).map (fun p => String.mk p.1)

/-- Host of a connection string: the part after `"://"` up to the next
`'/'`; empty for file-based URLs such as `"sqlite:///path/to/file.db"`. -/
def urlHost (s : String) : Option String :=
  (schemeRestSplit s.data).map (fun p => String.mk (p.2.takeWhile (· ≠ '/')))

/-- Modelled from the spec: validation of a `SqliteDatasource`
`connection_string` against `SqliteDsn` ("a URL-scheme validator
restricting acceptable connection-string prefixes to a fixed set of
variants of one embedded-database dialect").  The validator requires a
scheme drawn from `SqliteDsn.allowed_schemes` and, because
`SqliteDsn.host_required` is false, places no requirement on the host
component.  The `ConfigStr` alternative of the `connection_string` field
(the configuration-substitution mechanism) is an external collaborator per
the spec and is not modelled. -/
def SqliteDsn.validate (s : String) : Except String String :=
  match schemeRestSplit s.data with
  | none => Except.error "invalid or missing URL scheme"
  | some (sc, rest) =>
    if String.mk sc ∈ SqliteDsn.allowed_schemes then
      if SqliteDsn.host_required && (rest.takeWhile (· ≠ '/')).isEmpty then
        Except.error "URL host invalid"
      else Except.ok s
    else Except.error "URL scheme not permitted"

/-- C3: `SqliteDsn` validation accepts a connection string only if its
scheme is one of the four allowed SQLite schemes, and rejects with an
error every connection string whose scheme lies outside that set. -/
theorem sqlite_dsn_rejects_foreign_schemes (s : String) :
    ((∃ v, SqliteDsn.validate s = Except.ok v) →
      ∃ sc, urlScheme s = some sc ∧ sc ∈ SqliteDsn.allowed_schemes) ∧
    (∀ sc, urlScheme s = some sc → sc ∉ SqliteDsn.allowed_schemes →
      ∃ e, SqliteDsn.validate s = Except.error e) := by
  constructor
  · rintro ⟨v, hv⟩
    unfold SqliteDsn.validate at hv
    cases hsp : schemeRestSplit s.data with
    | none => rw [hsp] at hv; exact Except.noConfusion hv
    | some p =>
      obtain ⟨sc, rest⟩ := p
      rw [hsp] at hv
      by_cases hmem : String.mk sc ∈ SqliteDsn.allowed_schemes
      · exact ⟨String.mk sc, by simp [urlScheme, hsp], hmem⟩
      · have hv2 : (if String.mk sc ∈ SqliteDsn.allowed_schemes then
            (if SqliteDsn.host_required &&
                (rest.takeWhile (· ≠ '/')).isEmpty then
              Except.error "URL host invalid"
            else Except.ok s)
          else Except.error "URL scheme not permitted") = Except.ok v := hv
        rw [if_neg hmem] at hv2
        exact Except.noConfusion hv2
  · intro sc hsc hmem
    unfold SqliteDsn.validate
    unfold urlScheme at hsc
    cases hsp : schemeRestSplit s.data with
    | none => rw [hsp] at hsc; exact Option.noConfusion hsc
    | some p =>
      obtain ⟨sc2, rest⟩ := p
      rw [hsp] at hsc
      have hsc2 : some (String.mk sc2) = some sc := hsc
      injection hsc2 with heq
      subst heq
      refine ⟨"URL scheme not permitted", ?_⟩
      show (if String.mk sc2 ∈ SqliteDsn.allowed_schemes then
          (if SqliteDsn.host_required &&
              (rest.takeWhile (· ≠ '/')).isEmpty then
            Except.error "URL host invalid"
          else Except.ok s)
        else Except.error "URL scheme not permitted") =
          Except.error "URL scheme not permitted"
      rw [if_neg hmem]

theorem sqlite_dsn_rejects_foreign_schemes_witness :
    ∃ e, SqliteDsn.validate "postgresql://localhost/db" = Except.error e :=
  (sqlite_dsn_rejects_foreign_schemes "postgresql://localhost/db").2
    "postgresql" (by decide) (by decide)

/-- C10: `SqliteDsn` does not require a host component, so the file-based
connection string `"sqlite:///path/to/file.db"` (whose host is empty and
whose scheme is in the allowed set) passes validation. -/
theorem sqlite_dsn_accepts_empty_host :
    SqliteDsn.host_required = false ∧
    urlHost "sqlite:///path/to/file.db" = some "" ∧
    urlScheme "sqlite:///path/to/file.db" = some "sqlite" ∧
    SqliteDsn.validate "sqlite:///path/to/file.db" =
      Except.ok "sqlite:///path/to/file.db" := by
  refine ⟨rfl, by decide, by decide, by rfl⟩

/- ### SqliteTableAsset / SqliteQueryAsset (sqlite_datasource.py, lines 107-126) -/

/-- Modelled from the spec: the partitioner types of the generic SQL asset
base's partitioner framework (an external collaborator, not under src/).
Only `PartitionerConvertedDatetime` — the one type whose mapping entry the
SQLite asset subclasses swap — is named; every other partitioner type of
the framework is represented abstractly by `otherPartitioner n`. -/
inductive PartitionerTypeKey where
  | partitionerConvertedDatetime : PartitionerTypeKey
  | otherPartitioner : Nat → PartitionerTypeKey
deriving DecidableEq, Repr

/-- Modelled from the spec: partitioner implementations of the generic SQL
partitioning framework.  `sqlitePartitionerConvertedDateTime` embeds the
backend-specific `SqlitePartitionerConvertedDateTime` that the subclasses
install; the base framework's own implementations are represented
abstractly by `baseFrameworkImpl n`. -/
inductive PartitionerImplValue where
  | sqlitePartitionerConvertedDateTime : PartitionerImplValue
  | baseFrameworkImpl : Nat → PartitionerImplValue
deriving DecidableEq, Repr

/-- A partitioner implementation map, as held in the asset attribute
`_partitioner_implementation_map`: a Python dict from partitioner types to
implementations, embedded as a total function into `Option`. -/
def PartitionerImplMap : Type :=
  PartitionerTypeKey → Option PartitionerImplValue

/-- Embedding of `SqliteTableAsset` after `__init__`: the field
`_partitioner_implementation_map` and the literal `type` tag `"table"`. -/
structure SqliteTableAsset where
  partitioner_implementation_map : PartitionerImplMap
  type : String := "table"

/-- Embedding of `SqliteTableAsset.__init__` (lines 108-113): the base
class `__init__` leaves some map (abstracted as `baseMap`), and then the
dict entry at key `PartitionerConvertedDatetime` is overwritten with
`SqlitePartitionerConvertedDateTime`; no other entry is touched. -/
def SqliteTableAsset.init (baseMap : PartitionerImplMap) : SqliteTableAsset :=
  { partitioner_implementation_map := fun k =>
      if k = PartitionerTypeKey.partitionerConvertedDatetime then
        some PartitionerImplValue.sqlitePartitionerConvertedDateTime
      else baseMap k,
    type := "table" }

/-- Embedding of `SqliteQueryAsset` after `__init__`: the field
`_partitioner_implementation_map` and the literal `type` tag `"query"`. -/
structure SqliteQueryAsset where
  partitioner_implementation_map : PartitionerImplMap
  type : String := "query"

/-- Embedding of `SqliteQueryAsset.__init__` (lines 119-124): same swap as
in `SqliteTableAsset.init`. -/
def SqliteQueryAsset.init (baseMap : PartitionerImplMap) : SqliteQueryAsset :=
  { partitioner_implementation_map := fun k =>
      if k = PartitionerTypeKey.partitionerConvertedDatetime then
        some PartitionerImplValue.sqlitePartitionerConvertedDateTime
      else baseMap k,
    type := "query" }

/-- C5: after construction of a `SqliteTableAsset` or a `SqliteQueryAsset`,
the partitioner implementation map binds `PartitionerConvertedDatetime` to
`SqlitePartitionerConvertedDateTime`, and every other entry is unchanged
from the base-class map. -/
theorem sqlite_assets_swap_only_converted_datetime_entry
    (baseMap : PartitionerImplMap) :
    ((SqliteTableAsset.init baseMap).partitioner_implementation_map
        PartitionerTypeKey.partitionerConvertedDatetime =
      some PartitionerImplValue.sqlitePartitionerConvertedDateTime) ∧
    ((SqliteQueryAsset.init baseMap).partitioner_implementation_map
        PartitionerTypeKey.partitionerConvertedDatetime =
      some PartitionerImplValue.sqlitePartitionerConvertedDateTime) ∧
    (∀ k, k ≠ PartitionerTypeKey.partitionerConvertedDatetime →
      (SqliteTableAsset.init baseMap).partitioner_implementation_map k =
        baseMap k ∧
      (SqliteQueryAsset.init baseMap).partitioner_implementation_map k =
        baseMap k) := by
  refine ⟨rfl, rfl, fun k hk => ⟨?_, ?_⟩⟩ <;>
    simp [SqliteTableAsset.init, SqliteQueryAsset.init, hk]

theorem sqlite_assets_swap_only_converted_datetime_entry_witness :
    ((SqliteTableAsset.init
        (fun _ => some (PartitionerImplValue.baseFrameworkImpl 0))
      ).partitioner_implementation_map
        PartitionerTypeKey.partitionerConvertedDatetime =
      some PartitionerImplValue.sqlitePartitionerConvertedDateTime) ∧
    ((SqliteTableAsset.init
        (fun _ => some (PartitionerImplValue.baseFrameworkImpl 0))
      ).partitioner_implementation_map (PartitionerTypeKey.otherPartitioner 0) =
      some (PartitionerImplValue.baseFrameworkImpl 0)) :=
  ⟨(sqlite_assets_swap_only_converted_datetime_entry
      (fun _ => some (PartitionerImplValue.baseFrameworkImpl 0))).1,
   ((sqlite_assets_swap_only_converted_datetime_entry
      (fun _ => some (PartitionerImplValue.baseFrameworkImpl 0))).2.2
      (PartitionerTypeKey.otherPartitioner 0) (by decide)).1⟩

/- ### SqliteDatasource (sqlite_datasource.py, lines 129-217) -/

/-- Modelled from the spec: SQLAlchemy connection-pool classes (an external
collaborator, not under src/).  `staticPool` embeds
`sqlalchemy.pool.StaticPool`, the strategy the datasource forces; any other
pool class is represented abstractly. -/
inductive PoolClassValue where
  | staticPool : PoolClassValue
  | otherPoolClass : Nat → PoolClassValue
deriving DecidableEq, Repr

/-- Embedding of the class-variable definition of `SqliteDatasource._poolclass`
(lines 145-148): `sa.pool.StaticPool` when sqlalchemy is importable, `None`
otherwise.  Availability of sqlalchemy is a boolean parameter. -/
def SqliteDatasource.poolclassClassVar (saAvailable : Bool) :
    Option PoolClassValue :=
  if saAvailable then some PoolClassValue.staticPool else none

/-- Embedding of a `SqliteDatasource` instance: the `type` tag literal and
the validated connection string. -/
structure SqliteDatasource where
  name : String
  connection_string : String
  type : String := "sqlite"

/-- The arguments handed to `sa.create_engine` (an external collaborator):
the substituted connection string, the `poolclass` keyword, and any
remaining keyword arguments from the model dict. -/
structure EngineSpec where
  connection_string : String
  poolclass : Option PoolClassValue
  kwargs : List (String × String)
deriving Repr

/-- Embedding of `SqliteDatasource._create_engine` (lines 159-176).  The
call `self.dict(exclude=..., config_provider=...)` applies config
substitutions (the configuration-substitution mechanism is an external
collaborator, abstracted as the function `subst`); the substituted
connection string and the `kwargs` entry are popped from the model dict
and passed to `sa.create_engine` together with
`poolclass=self._poolclass`. -/
def SqliteDatasource.create_engine (saAvailable : Bool)
    (subst : String → String) (ds : SqliteDatasource)
    (kwargs : List (String × String)) : EngineSpec :=
  { connection_string := subst ds.connection_string,
    poolclass := SqliteDatasource.poolclassClassVar saAvailable,
    kwargs := kwargs }

/-- C4: whenever sqlalchemy is available, `_create_engine` passes
`poolclass = StaticPool` (the class-level `_poolclass`) to engine
creation, with the config-substituted connection string. -/
theorem create_engine_forces_static_pool (saAvailable : Bool)
    (subst : String → String) (ds : SqliteDatasource)
    (kwargs : List (String × String)) (h : saAvailable = true) :
    (SqliteDatasource.create_engine saAvailable subst ds kwargs).poolclass =
      some PoolClassValue.staticPool ∧
    (SqliteDatasource.create_engine saAvailable subst ds kwargs
      ).connection_string = subst ds.connection_string := by
  subst h
  exact ⟨rfl, rfl⟩

theorem create_engine_forces_static_pool_witness :
    (SqliteDatasource.create_engine true id
        { name := "db", connection_string := "sqlite:///db.sqlite" } []
      ).poolclass = some PoolClassValue.staticPool ∧
    (SqliteDatasource.create_engine true id
        { name := "db", connection_string := "sqlite:///db.sqlite" } []
      ).connection_string = id "sqlite:///db.sqlite" :=
  create_engine_forces_static_pool true id
    { name := "db", connection_string := "sqlite:///db.sqlite" } [] rfl

/- ### add_table_asset / add_query_asset (sqlite_datasource.py, lines 153-217) -/

/-- Embedding of the private class attributes `_TableAsset` and
`_QueryAsset` (lines 156-157) and the asset classes they can name. -/
inductive SqlAssetKind where
  | sqlTableAsset : SqlAssetKind
  | sqlQueryAsset : SqlAssetKind
  | sqliteTableAsset : SqlAssetKind
  | sqliteQueryAsset : SqlAssetKind
deriving DecidableEq, Repr

/-- Embedding of `SqliteDatasource._TableAsset = SqliteTableAsset`. -/
def SqliteDatasource.tableAssetClassVar : SqlAssetKind :=
  SqlAssetKind.sqliteTableAsset

/-- Embedding of `SqliteDatasource._QueryAsset = SqliteQueryAsset`. -/
def SqliteDatasource.queryAssetClassVar : SqlAssetKind :=
  SqlAssetKind.sqliteQueryAsset

/-- An asset as returned by the asset-creation methods: the class it was
instantiated from and its constructor arguments. -/
structure CreatedAsset where
  cls : SqlAssetKind
  name : String
  payload : String
deriving DecidableEq, Repr

/-- Modelled from the spec: the generic SQL datasource base's
`add_table_asset` (an external collaborator, not under src/) instantiates
the datasource's configured `_TableAsset` class with the given arguments,
registers it, and returns the new asset. -/
def SQLDatasource.add_table_asset_base (tableAssetCls : SqlAssetKind)
    (name table_name : String) : CreatedAsset :=
  { cls := tableAssetCls, name := name, payload := table_name }

/-- Modelled from the spec: the generic SQL datasource base's
`add_query_asset` instantiates the datasource's configured `_QueryAsset`
class with the given arguments and returns the new asset. -/
def SQLDatasource.add_query_asset_base (queryAssetCls : SqlAssetKind)
    (name query : String) : CreatedAsset :=
  { cls := queryAssetCls, name := name, payload := query }

/-- Embedding of `SqliteDatasource.add_table_asset` (lines 178-198): it
delegates to the base method — which instantiates
`SqliteDatasource._TableAsset` — and the `cast` narrowing the static
return type is a runtime no-op. -/
def SqliteDatasource.add_table_asset (_ds : SqliteDatasource)
    (name table_name : String) : CreatedAsset :=
  SQLDatasource.add_table_asset_base SqliteDatasource.tableAssetClassVar
    name table_name

/-- Embedding of `SqliteDatasource.add_query_asset` (lines 202-215):
delegates to the base method, which instantiates
`SqliteDatasource._QueryAsset`. -/
def SqliteDatasource.add_query_asset (_ds : SqliteDatasource)
    (name query : String) : CreatedAsset :=
  SQLDatasource.add_query_asset_base SqliteDatasource.queryAssetClassVar
    name query

/-- C6: on a `SqliteDatasource`, every asset returned by `add_table_asset`
is a `SqliteTableAsset` and every asset returned by `add_query_asset` is a
`SqliteQueryAsset` — the narrowed SQLite-specific classes, not the generic
SQL ones. -/
theorem add_assets_return_sqlite_specific_types (ds : SqliteDatasource)
    (name table_name query : String) :
    (ds.add_table_asset name table_name).cls = SqlAssetKind.sqliteTableAsset ∧
    (ds.add_query_asset name query).cls = SqlAssetKind.sqliteQueryAsset :=
  ⟨rfl, rfl⟩

/- ### Contract test (tests/integration/cloud/rest_contracts/test_datasource.py) -/

/-- Embedding of pact response-body matchers: `pact.Like(...)` over a dict
of fields, `pact.Format().uuid` (a UUID-format matcher), and a plain dict
of fields. -/
inductive PactBodyValue where
  | like : List (String × PactBodyValue) → PactBodyValue
  | formatUuid : PactBodyValue
  | fields : List (String × PactBodyValue) → PactBodyValue

/-- Embedding of `DATASOURCE_MIN_RESPONSE_BODY` (lines 15-21): a dict whose
single key `"data"` holds `pact.Like` over a dict whose single key `"id"`
is a UUID-format matcher. -/
def DATASOURCE_MIN_RESPONSE_BODY : PactBodyValue :=
  PactBodyValue.fields
    [("data", PactBodyValue.like [("id", PactBodyValue.formatUuid)])]

/-- Embedding of `ContractInteraction` (declared in the contract-test
conftest, an external collaborator of this fragment): the fields are
exactly those the test supplies by keyword. -/
structure ContractInteraction where
  method : String
  upon_receiving : String
  given : String
  response_status : Nat
  response_body : PactBodyValue

/-- Embedding of the `pytest.mark.parametrize` list of `test_datasource`
(lines 25-36): the exchanges the contract test describes. -/
def test_datasource_interactions : List ContractInteraction :=
  [{ method := "PUT",
     upon_receiving := "a request to add a Data Source",
     given := "the Data Source does not exist",
     response_status := 200,
     response_body := DATASOURCE_MIN_RESPONSE_BODY }]

/-- Embedding of the request path built in `test_datasource` (lines 42-45):
`pathlib.Path("/", "organizations", org_id, "datasources", str(uuid.uuid4()))`,
whose string form joins the segments with `"/"`.  The freshly generated
UUID is a parameter. -/
def test_datasource_path (existing_organization_id new_uuid : String) :
    String :=
  "/organizations/" ++ existing_organization_id ++ "/datasources/" ++ new_uuid

/-- C7: the contract test describes exactly one exchange — a single
`ContractInteraction` with method `PUT`, expected status `200`, and an
expected body whose `"data"` object carries an `"id"` field in UUID
format — and the request path is
`/organizations/<organization id>/datasources/<fresh UUID>`. -/
theorem contract_test_single_put_exchange :
    test_datasource_interactions.length = 1 ∧
    (∀ i ∈ test_datasource_interactions,
      i.method = "PUT" ∧
      i.response_status = 200 ∧
      i.response_body = PactBodyValue.fields
        [("data", PactBodyValue.like [("id", PactBodyValue.formatUuid)])]) ∧
    (∀ org u, test_datasource_path org u =
      "/organizations/" ++ org ++ "/datasources/" ++ u) := by
  refine ⟨rfl, ?_, fun org u => rfl⟩
  intro i hi
  simp only [test_datasource_interactions, List.mem_singleton] at hi
  subst hi
  exact ⟨rfl, rfl, rfl⟩

theorem contract_test_single_put_exchange_witness :
    ({ method := "PUT",
       upon_receiving := "a request to add a Data Source",
       given := "the Data Source does not exist",
       response_status := 200,
       response_body := DATASOURCE_MIN_RESPONSE_BODY } :
        ContractInteraction).method = "PUT" ∧
    ({ method := "PUT",
       upon_receiving := "a request to add a Data Source",
       given := "the Data Source does not exist",
       response_status := 200,
       response_body := DATASOURCE_MIN_RESPONSE_BODY } :
        ContractInteraction).response_status = 200 ∧
    ({ method := "PUT",
       upon_receiving := "a request to add a Data Source",
       given := "the Data Source does not exist",
       response_status := 200,
       response_body := DATASOURCE_MIN_RESPONSE_BODY } :
        ContractInteraction).response_body = PactBodyValue.fields
      [("data", PactBodyValue.like [("id", PactBodyValue.formatUuid)])] :=
  contract_test_single_put_exchange.2.1 _ (List.Mem.head _)
